import Mathlib

/-!
Verification of the SSH chat server (shared chat state manager and
per-connection interaction state machine).

The Go source keeps an append-only list `chatMessages : []Message`, a vote
ledger `userVotes : map[string]map[string]int`, and a presence counter
`onlineUsers : int`.  The per-connection bubbletea `model` carries
`isSelectMode`, `selectedMessage` and `lastMessageCount`.  Each Go function
relevant to the claims is embedded below as a pure Lean function over these
shapes; Go maps are modelled as association lists with first-match lookup,
Go `int` as `Int`, Go byte slices as `List Nat`.
-/

namespace Chat

/-- Association-list model of a Go `map[string]α`: lookup of the first
binding for a key (Go maps have at most one binding per key). -/
def mapLookup {α : Type} (l : List (String × α)) (k : String) : Option α :=
  match l with
  | [] => none
  | p :: t => if p.1 = k then some p.2 else mapLookup t k

/-- Association-list model of Go `m[k] = v`: replace the binding for `k`,
or append a fresh one. -/
def mapInsert {α : Type} (l : List (String × α)) (k : String) (v : α) :
    List (String × α) :=
  match l with
  | [] => [(k, v)]
  | p :: t => if p.1 = k then (k, v) :: t else p :: mapInsert t k v

theorem mapLookup_mapInsert_self {α : Type} (l : List (String × α))
    (k : String) (v : α) : mapLookup (mapInsert l k v) k = some v := by
  induction l with
  | nil => simp [mapInsert, mapLookup]
  | cons p t ih =>
    by_cases h : p.1 = k
    · simp [mapInsert, mapLookup, h]
    · simp [mapInsert, mapLookup, h, ih]

/-! ### Bytes, UTF-8 and SHA-256

`generateUniqueMessageID` feeds `fmt.Sprintf("%s%s%s", ...)` through
`crypto/sha256` and formats the digest with `%x`; the whole pipeline is
reproduced here over `List Nat` bytes. -/

/-- UTF-8 encoding of one character, as Go produces when converting a
`string` to `[]byte`. -/
def utf8Bytes (c : Char) : List Nat :=
  let n := c.toNat
  if n < 128 then [n]
  else if n < 2048 then [192 + n / 64, 128 + n % 64]
  else if n < 65536 then [224 + n / 4096, 128 + n / 64 % 64, 128 + n % 64]
  else [240 + n / 262144, 128 + n / 4096 % 64, 128 + n / 64 % 64, 128 + n % 64]

/-- Go `[]byte(s)`: the UTF-8 bytes of a string. -/
def strBytes (s : String) : List Nat := (s.data.map utf8Bytes).flatten

/-- 2^32, the modulus of 32-bit words. -/
def w32 : Nat := 4294967296

/-- Right rotation of a 32-bit word by `n` bits. -/
def rotr32 (n x : Nat) : Nat := x % 2 ^ n * 2 ^ (32 - n) + x / 2 ^ n

/-- Logical right shift of a 32-bit word by `n` bits. -/
def shr32 (n x : Nat) : Nat := x / 2 ^ n

/-- Bitwise complement of a 32-bit word. -/
def not32 (x : Nat) : Nat := (w32 - 1) - x % w32

/-- Big-endian byte decomposition of `v` into `n` bytes. -/
def bytesBE (n v : Nat) : List Nat :=
  (List.range n).map (fun i => v / 2 ^ (8 * (n - 1 - i)) % 256)

/-- Group a byte list into big-endian 32-bit words. -/
def toWords : List Nat → List Nat
  | a :: b :: c :: d :: rest => (((a * 256 + b) * 256 + c) * 256 + d) :: toWords rest
  | _ => []

/-- SHA-256 round constants (decimal). -/
def sha256K : List Nat :=
  [1116352408, 1899447441, 3049323471, 3921009573, 961987163,
   1508970993, 2453635748, 2870763221, 3624381080, 310598401,
   607225278, 1426881987, 1925078388, 2162078206, 2614888103,
   3248222580, 3835390401, 4022224774, 264347078, 604807628,
   770255983, 1249150122, 1555081692, 1996064986, 2554220882,
   2821834349, 2952996808, 3210313671, 3336571891, 3584528711,
   113926993, 338241895, 666307205, 773529912, 1294757372,
   1396182291, 1695183700, 1986661051, 2177026350, 2456956037,
   2730485921, 2820302411, 3259730800, 3345764771, 3516065817,
   3600352804, 4094571909, 275423344, 430227734, 506948616,
   659060556, 883997877, 958139571, 1322822218, 1537002063,
   1747873779, 1955562222, 2024104815, 2227730452, 2361852424,
   2428436474, 2756734187, 3204031479, 3329325298]

/-- SHA-256 initial hash value (decimal). -/
def sha256H0 : List Nat :=
  [1779033703, 3144134277, 1013904242, 2773480762,
   1359893119, 2600822924, 528734635, 1541459225]

/-- SHA-256 message padding: a `0x80` byte, zeros to 56 mod 64, then the
bit length in 8 big-endian bytes. -/
def sha256Pad (msg : List Nat) : List Nat :=
  let padZeros := (119 - msg.length % 64) % 64
  msg ++ [128] ++ List.replicate padZeros 0 ++ bytesBE 8 (msg.length * 8)

/-- SHA-256 small sigma-0. -/
def smallSigma0 (x : Nat) : Nat := rotr32 7 x ^^^ rotr32 18 x ^^^ shr32 3 x

/-- SHA-256 small sigma-1. -/
def smallSigma1 (x : Nat) : Nat := rotr32 17 x ^^^ rotr32 19 x ^^^ shr32 10 x

/-- SHA-256 big Sigma-0. -/
def bigSigma0 (x : Nat) : Nat := rotr32 2 x ^^^ rotr32 13 x ^^^ rotr32 22 x

/-- SHA-256 big Sigma-1. -/
def bigSigma1 (x : Nat) : Nat := rotr32 6 x ^^^ rotr32 11 x ^^^ rotr32 25 x

/-- Append the next word of the SHA-256 message schedule. -/
def scheduleStep (ws : List Nat) : List Nat :=
  let n := ws.length
  let w15 := ws.getD (n - 15) 0
  let w2 := ws.getD (n - 2) 0
  let w16 := ws.getD (n - 16) 0
  let w7 := ws.getD (n - 7) 0
  ws ++ [(w16 + smallSigma0 w15 + w7 + smallSigma1 w2) % w32]

/-- Extend 16 block words to the 64-word SHA-256 message schedule. -/
def sha256Schedule (ws : List Nat) : List Nat :=
  (List.range 48).foldl (fun acc _ => scheduleStep acc) ws

/-- One SHA-256 compression round on state `[a,b,c,d,e,f,g,h]` with a
round constant paired with a schedule word. -/
def sha256Round (state : List Nat) (kw : Nat × Nat) : List Nat :=
  match state with
  | [a, b, c, d, e, f, g, h] =>
    let ch := (e &&& f) ^^^ (not32 e &&& g)
    let maj := (a &&& b) ^^^ (a &&& c) ^^^ (b &&& c)
    let t1 := (h + bigSigma1 e + ch + kw.1 + kw.2) % w32
    let t2 := (bigSigma0 a + maj) % w32
    [(t1 + t2) % w32, a, b, c, (d + t1) % w32, e, f, g]
  | s => s

/-- SHA-256 compression of one 16-word block into the running hash. -/
def sha256Compress (h : List Nat) (block : List Nat) : List Nat :=
  let ws := sha256Schedule block
  let out := (sha256K.zip ws).foldl sha256Round h
  (h.zip out).map (fun p => (p.1 + p.2) % w32)

/-- Fold the compression over the padded message, 64 bytes at a time. -/
def sha256Blocks (h : List Nat) (bytes : List Nat) : List Nat :=
  match bytes with
  | [] => h
  | b :: rest =>
    sha256Blocks (sha256Compress h (toWords ((b :: rest).take 64)))
      ((b :: rest).drop 64)
termination_by bytes.length
decreasing_by simp; omega

/-- SHA-256 digest of a byte list, as 32 bytes. -/
def sha256Bytes (msg : List Nat) : List Nat :=
  ((sha256Blocks sha256H0 (sha256Pad msg)).map (bytesBE 4)).flatten

/-- Lowercase hex digit, as Go `%x` prints. -/
def hexDigit (n : Nat) : Char :=
  if n < 10 then Char.ofNat (48 + n) else Char.ofNat (87 + n)

/-- Two lowercase hex digits of one byte. -/
def hexByte (b : Nat) : List Char := [hexDigit (b / 16), hexDigit (b % 16)]

/-- Go `fmt.Sprintf("%x", bytes)`: lowercase hex of a byte list. -/
def hexOfBytes (bs : List Nat) : String := String.mk ((bs.map hexByte).flatten)

/-! ### Data model -/

/-- The Go `Message` struct. -/
structure Message where
  Username : String
  Timestamp : String
  PubKey : String
  Content : String
  Upvotes : Int
  Downvotes : Int
  UniqueID : String
  System : Bool
  deriving Repr, DecidableEq

/-- The part of an `ssh.Session` the chat core reads: `session.User()` and
`session.PublicKey()` (the marshalled key bytes, absent when the client sent
no key). -/
structure Session where
  user : String
  pubKey : Option (List Nat)
  deriving Repr, DecidableEq

/-- Go `generateUniqueMessageID`: sha256 of
`fmt.Sprintf("%s%s%s", msg.Username, msg.Timestamp, msg.Content)`,
hex-encoded. -/
def generateUniqueMessageID (msg : Message) : String :=
  hexOfBytes (sha256Bytes (strBytes (msg.Username ++ msg.Timestamp ++ msg.Content)))

/-- Username chosen in `addMessage`: `"Anonymous"` for a nil session. -/
def sessionUsername : Option Session → String
  | none => "Anonymous"
  | some s => s.user

/-- PubKey string chosen in `addMessage`: `"N/A"` for a nil session or a
session without a public key, else the hex sha256 of the marshalled key. -/
def sessionPubKey : Option Session → String
  | none => "N/A"
  | some s =>
    match s.pubKey with
    | none => "N/A"
    | some key => hexOfBytes (sha256Bytes key)

/-- Go `addMessage(session, message, system)`: builds a `Message` with zero
counters, assigns a `UniqueID` only when the message is not a system
message, and appends it to the log.  `timestamp` stands for the
`time.Now()` format result, supplied by the environment. -/
def addMessage (session : Option Session) (timestamp : String)
    (message : String) (system : Bool) (chatMessages : List Message) :
    List Message :=
  let msg : Message :=
    { Username := sessionUsername session
      Timestamp := timestamp
      PubKey := sessionPubKey session
      Content := message
      Upvotes := 0
      Downvotes := 0
      UniqueID := ""
      System := system }
  let msg := if !system then { msg with UniqueID := generateUniqueMessageID msg } else msg
  chatMessages ++ [msg]

/-- Go `getMessages`: an independent copy of the log (copies are equal as
lists). -/
def getMessages (chatMessages : List Message) : List Message := chatMessages

/-! ### Presence counter -/

/-- Go `incrementUsers`: adds one to `onlineUsers`. -/
def incrementUsers (onlineUsers : Int) : Int := onlineUsers + 1

/-- Go `decrementUsers`: subtracts one from `onlineUsers` only when it is
positive. -/
def decrementUsers (onlineUsers : Int) : Int :=
  if onlineUsers > 0 then onlineUsers - 1 else onlineUsers

/-- A connect or disconnect notification. -/
inductive PresenceOp
  | inc
  | dec
  deriving Repr, DecidableEq

/-- Apply one presence notification to the counter. -/
def applyPresenceOp (op : PresenceOp) (n : Int) : Int :=
  match op with
  | .inc => incrementUsers n
  | .dec => decrementUsers n

/-- Run a sequence of presence notifications on the counter. -/
def applyPresenceOps (ops : List PresenceOp) (n : Int) : Int :=
  match ops with
  | [] => n
  | op :: t => applyPresenceOps t (applyPresenceOp op n)

/-! ### Voting -/

/-- The vote ledger `userVotes : map[string]map[string]int`. -/
abbrev UserVotes : Type := List (String × List (String × Int))

/-- The counter update applied to the matched message inside
`voteMessage`'s scan: undo a previous vote if one is recorded for this id,
then apply the new vote. -/
def applyVoteTo (msg : Message) (userVotesForMessage : List (String × Int))
    (messageID : String) (voteType : Int) : Message :=
  let msg1 :=
    match mapLookup userVotesForMessage messageID with
    | some prevVote =>
      if prevVote > 0 then { msg with Upvotes := msg.Upvotes - 1 }
      else if prevVote < 0 then { msg with Downvotes := msg.Downvotes - 1 }
      else msg
    | none => msg
  if voteType > 0 then { msg1 with Upvotes := msg1.Upvotes + 1 }
  else { msg1 with Downvotes := msg1.Downvotes + 1 }

/-- The `for i, msg := range chatMessages` scan of `voteMessage`: mutate the
first message whose `UniqueID` equals `messageID`, or report that none
exists. -/
def voteLoop (chatMessages : List Message) (messageID : String)
    (userVotesForMessage : List (String × Int)) (voteType : Int) :
    Option (List Message) :=
  match chatMessages with
  | [] => none
  | msg :: rest =>
    if msg.UniqueID = messageID then
      some (applyVoteTo msg userVotesForMessage messageID voteType :: rest)
    else
      (voteLoop rest messageID userVotesForMessage voteType).map (msg :: ·)

/-- Result of `voteMessage`: the returned error (if any) together with the
vote ledger and log after the call. -/
structure VoteResult where
  err : Option String
  userVotes : UserVotes
  chatMessages : List Message
  deriving Repr, DecidableEq

/-- Go `voteMessage(session, messageID, voteType)`.  The voter key is
`session.User()`.  A missing inner map is created (an empty entry, observable
only as bookkeeping); a repeated direction — Go's map read defaults to 0 —
returns the duplicate-vote error with nothing else changed; otherwise the
scan updates the first matching message and the ledger records the new
direction. -/
def voteMessage (session : Session) (userVotes : UserVotes)
    (chatMessages : List Message) (messageID : String) (voteType : Int) :
    VoteResult :=
  let username := session.user
  let userVotesForMessage := (mapLookup userVotes username).getD []
  let userVotes0 :=
    if (mapLookup userVotes username).isSome then userVotes
    else mapInsert userVotes username []
  if (mapLookup userVotesForMessage messageID).getD 0 = voteType then
    { err := some "you have already voted this way"
      userVotes := userVotes0
      chatMessages := chatMessages }
  else
    match voteLoop chatMessages messageID userVotesForMessage voteType with
    | some newMessages =>
      { err := none
        userVotes := mapInsert userVotes0 username
          (mapInsert userVotesForMessage messageID voteType)
        chatMessages := newMessages }
    | none =>
      { err := some "message not found"
        userVotes := userVotes0
        chatMessages := chatMessages }

/-! ### Per-connection state machine

The bubbletea `model` fields that carry interaction state; viewport,
textarea and styles are rendering only. -/

/-- Interaction state of one connection: mode, selected index and last seen
message count (Go `int`s). -/
structure ClientView where
  isSelectMode : Bool
  selectedMessage : Int
  lastMessageCount : Int
  deriving Repr, DecidableEq

/-- The `tea.KeyTab` case of `Update`: flip the mode; on entering selection
mode set `selectedMessage` to the last index of the log. -/
def toggleMode (chatMessages : List Message) (v : ClientView) : ClientView :=
  let sm := !v.isSelectMode
  if sm then
    { v with isSelectMode := sm, selectedMessage := (chatMessages.length : Int) - 1 }
  else
    { v with isSelectMode := sm }

/-- The `tea.KeyUp` loop of `Update` in selection mode: decrement while
positive, stop at index 0 or at a non-system message.  `none` stands for the
panic Go raises when `chatMessages[sel]` is indexed out of range. -/
def navigateUp (chatMessages : List Message) (sel : Int) : Option Int :=
  if _h1 : 0 < sel then
    if sel - 1 = 0 then some 0
    else
      match chatMessages.get? (sel - 1).toNat with
      | none => none
      | some m => if m.System then navigateUp chatMessages (sel - 1) else some (sel - 1)
  else if sel = 0 then some 0
  else none
termination_by sel.toNat
decreasing_by omega

/-- The `tea.KeyDown` loop of `Update` in selection mode: increment while
below `len-1`, stop at index `len-1` or at a non-system message.  `none`
again stands for an out-of-range index panic. -/
def navigateDown (chatMessages : List Message) (sel : Int) : Option Int :=
  if _h1 : sel < (chatMessages.length : Int) - 1 then
    if sel + 1 = (chatMessages.length : Int) - 1 then some (sel + 1)
    else if sel + 1 < 0 then none
    else
      match chatMessages.get? (sel + 1).toNat with
      | none => none
      | some m => if m.System then navigateDown chatMessages (sel + 1) else some (sel + 1)
  else if sel = (chatMessages.length : Int) - 1 then some sel
  else none
termination_by ((chatMessages.length : Int) - sel).toNat
decreasing_by omega

/-- One selection-mode navigation key. -/
inductive NavEvent
  | up
  | down
  deriving Repr, DecidableEq

/-- Dispatch one navigation key to its loop. -/
def applyNav (chatMessages : List Message) (e : NavEvent) (sel : Int) :
    Option Int :=
  match e with
  | .up => navigateUp chatMessages sel
  | .down => navigateDown chatMessages sel

/-- Run a sequence of navigation keys, propagating a panic. -/
def applyNavs (chatMessages : List Message) (es : List NavEvent) (sel : Int) :
    Option Int :=
  match es with
  | [] => some sel
  | e :: t =>
    match applyNav chatMessages e sel with
    | none => none
    | some sel1 => applyNavs chatMessages t sel1

/-- The `tea.KeyEnter` case of `Update`: append the textarea value as a
non-system message when not in selection mode and the value is non-empty;
otherwise leave the log alone.  The refreshed viewport content is the
updated log itself (`getMessages`). -/
def handleEnter (session : Session) (v : ClientView) (textValue : String)
    (timestamp : String) (chatMessages : List Message) : List Message :=
  if !v.isSelectMode && textValue ≠ "" then
    addMessage (some session) timestamp textValue false chatMessages
  else chatMessages

/-- The `messagesUpdatedMsg` case of `Update`: when the log length differs
from `lastMessageCount`, record the new length and move `selectedMessage`
to the last index; otherwise change nothing. -/
def handleRefreshTick (chatMessages : List Message) (v : ClientView) :
    ClientView :=
  if (chatMessages.length : Int) ≠ v.lastMessageCount then
    { v with
      lastMessageCount := (chatMessages.length : Int)
      selectedMessage := (chatMessages.length : Int) - 1 }
  else v

/-- Modelled from the spec: the trimming the spec's `Submit(text)` performs
before the emptiness test ("trims `text`; if non-empty ..."); the Go Enter
handler has no counterpart, so this follows the spec's words: strip leading
and trailing whitespace. -/
def trimSpec (s : String) : String :=
  String.mk (((s.data.dropWhile Char.isWhitespace).reverse.dropWhile
    Char.isWhitespace).reverse)

/-! ### Concrete fixtures

Log states of the kind the running server produces: `main` appends a system
welcome message, `teaHandler` appends a system join notice per connection,
and users append non-system messages.  Timestamps and ids are illustrative
log states (`voteMessage` and navigation read them opaquely). -/

/-- A system message like the startup welcome line: empty `UniqueID`. -/
def welcomeMsg : Message :=
  { Username := "Anonymous", Timestamp := "t0", PubKey := "N/A",
    Content := "Welcome to letsgosky.social", Upvotes := 0, Downvotes := 0,
    UniqueID := "", System := true }

/-- A system join notice like the one `teaHandler` appends. -/
def joinMsg : Message :=
  { Username := "Anonymous", Timestamp := "t2", PubKey := "N/A",
    Content := "Silly goober bob has made the mistake of joining the cult",
    Upvotes := 0, Downvotes := 0, UniqueID := "", System := true }

/-- A non-system user message fixture. -/
def helloMsg : Message :=
  { Username := "alice", Timestamp := "t1", PubKey := "N/A",
    Content := "hello", Upvotes := 0, Downvotes := 0,
    UniqueID := "id1", System := false }

/-- A session fixture with a public key. -/
def bobSession : Session := ⟨"bob", some [1, 2, 3]⟩

/-! ### Helper lemmas -/

theorem presence_nonneg (ops : List PresenceOp) (n : Int) (h : 0 ≤ n) :
    0 ≤ applyPresenceOps ops n := by
  induction ops generalizing n with
  | nil => exact h
  | cons op t ih =>
    apply ih
    cases op with
    | inc => simp only [applyPresenceOp, incrementUsers]; omega
    | dec => simp only [applyPresenceOp, decrementUsers]; split <;> omega

theorem voteLoop_append (pre post : List Message) (m : Message) (mid : String)
    (uvm : List (String × Int)) (vt : Int)
    (hm : m.UniqueID = mid) (hpre : ∀ x ∈ pre, x.UniqueID ≠ mid) :
    voteLoop (pre ++ m :: post) mid uvm vt =
      some (pre ++ applyVoteTo m uvm mid vt :: post) := by
  induction pre with
  | nil => simp [voteLoop, hm]
  | cons a t ih =>
    have ha : a.UniqueID ≠ mid := hpre a (by simp)
    have ht : ∀ x ∈ t, x.UniqueID ≠ mid := fun x hx => hpre x (by simp [hx])
    simp [voteLoop, ha, ih ht]

theorem lookup_of_inner_lookup (uv : UserVotes) (user mid : String) (d : Int)
    (hrec : mapLookup ((mapLookup uv user).getD []) mid = some d) :
    ∃ uvm, mapLookup uv user = some uvm ∧ mapLookup uvm mid = some d := by
  cases h : mapLookup uv user with
  | none => rw [h] at hrec; simp [mapLookup] at hrec
  | some uvm => rw [h] at hrec; exact ⟨uvm, rfl, hrec⟩

theorem navigateUp_safe (msgs : List Message) (sel : Int)
    (h0 : 0 ≤ sel) (h1 : sel < (msgs.length : Int)) :
    ∃ r, navigateUp msgs sel = some r ∧ 0 ≤ r ∧ r < (msgs.length : Int) ∧
      (r = 0 ∨ (msgs.get? r.toNat).map Message.System = some false) := by
  induction sel using navigateUp.induct msgs with
  | case1 x hx he =>
    exact ⟨0, by simp [navigateUp, hx, he], le_rfl, by omega, Or.inl rfl⟩
  | case2 x hx he hget =>
    rw [List.get?_eq_none] at hget
    omega
  | case3 x hx he m hget hm ih =>
    obtain ⟨r, hr, hb0, hb1, hd⟩ := ih (by omega) (by omega)
    refine ⟨r, ?_, hb0, hb1, hd⟩
    rw [navigateUp, dif_pos hx, if_neg he, hget]
    simpa [hm] using hr
  | case4 x hx he m hget hm =>
    refine ⟨x - 1, ?_, by omega, by omega, Or.inr ?_⟩
    · rw [navigateUp, dif_pos hx, if_neg he, hget]
      simp [hm]
    · rw [hget]
      simpa using hm
  | case5 h =>
    exact ⟨0, by simp [navigateUp], le_rfl, by omega, Or.inl rfl⟩
  | case6 x hx hne => omega

theorem navigateDown_safe (msgs : List Message) (sel : Int)
    (h0 : 0 ≤ sel) (h1 : sel < (msgs.length : Int)) :
    ∃ r, navigateDown msgs sel = some r ∧ 0 ≤ r ∧ r < (msgs.length : Int) ∧
      (r = (msgs.length : Int) - 1 ∨
        (msgs.get? r.toNat).map Message.System = some false) := by
  induction sel using navigateDown.induct msgs with
  | case1 x hx he =>
    exact ⟨x + 1, by rw [navigateDown]; simp [hx, he], by omega, by omega, Or.inl he⟩
  | case2 x hx he hneg => omega
  | case3 x hx he hneg hget =>
    rw [List.get?_eq_none] at hget
    omega
  | case4 x hx he hneg m hget hm ih =>
    obtain ⟨r, hr, hb0, hb1, hd⟩ := ih (by omega) (by omega)
    refine ⟨r, ?_, hb0, hb1, hd⟩
    rw [navigateDown, dif_pos hx, if_neg he, if_neg hneg, hget]
    simpa [hm] using hr
  | case5 x hx he hneg m hget hm =>
    refine ⟨x + 1, ?_, by omega, by omega, Or.inr ?_⟩
    · rw [navigateDown, dif_pos hx, if_neg he, if_neg hneg, hget]
      simp [hm]
    · rw [hget]
      simpa using hm
  | case6 h =>
    refine ⟨(msgs.length : Int) - 1, ?_, by omega, by omega, Or.inl rfl⟩
    rw [navigateDown, dif_neg h, if_pos rfl]
  | case7 x hx hne => omega

/-! ### Claims -/

/-- C1: if a voter's currently recorded direction for a message id present
in the log equals the direction passed to `voteMessage`, the call returns
the duplicate-vote error and both the log (hence every counter) and the
vote ledger are unchanged. -/
theorem C1_duplicate_vote_rejected (s : Session) (uv : UserVotes)
    (msgs : List Message) (mid : String) (vt : Int)
    ( _hmem : ∃ m ∈ msgs, m.UniqueID = mid)
    (hrec : mapLookup ((mapLookup uv s.user).getD []) mid = some vt) :
    (voteMessage s uv msgs mid vt).err = some "you have already voted this way" ∧
    (voteMessage s uv msgs mid vt).chatMessages = msgs ∧
    (voteMessage s uv msgs mid vt).userVotes = uv := by
  obtain ⟨uvm, huv, hin⟩ := lookup_of_inner_lookup uv s.user mid vt hrec
  simp [voteMessage, huv, hin]

/-- C1 witness: a concrete duplicate upvote by `bob` on `helloMsg`. -/
theorem C1_witness :
    ((∃ m ∈ [welcomeMsg, helloMsg], m.UniqueID = "id1") ∧
      mapLookup ((mapLookup [("bob", [("id1", (1 : Int))])] bobSession.user).getD [])
        "id1" = some 1) ∧
    (voteMessage bobSession [("bob", [("id1", 1)])] [welcomeMsg, helloMsg]
        "id1" 1).err = some "you have already voted this way" ∧
    (voteMessage bobSession [("bob", [("id1", 1)])] [welcomeMsg, helloMsg]
        "id1" 1).chatMessages = [welcomeMsg, helloMsg] ∧
    (voteMessage bobSession [("bob", [("id1", 1)])] [welcomeMsg, helloMsg]
        "id1" 1).userVotes = [("bob", [("id1", 1)])] :=
  ⟨⟨by decide, by decide⟩,
    C1_duplicate_vote_rejected bobSession [("bob", [("id1", 1)])]
      [welcomeMsg, helloMsg] "id1" 1 (by decide) (by decide)⟩

/-- C2: a voter with a recorded direction on the (first) message carrying a
given id who votes the opposite direction gets no error; the counter of the
old direction drops by one, the counter of the new direction rises by one,
and the ledger records the new direction — for every prior state, hence
after any number of successive flips. -/
theorem C2_flip_vote (s : Session) (uv : UserVotes) (pre post : List Message)
    (m : Message) (mid : String) (d vt : Int)
    (hm : m.UniqueID = mid) (hpre : ∀ x ∈ pre, x.UniqueID ≠ mid)
    (hrec : mapLookup ((mapLookup uv s.user).getD []) mid = some d)
    (hopp : d = 1 ∧ vt = -1 ∨ d = -1 ∧ vt = 1) :
    (voteMessage s uv (pre ++ m :: post) mid vt).err = none ∧
    (voteMessage s uv (pre ++ m :: post) mid vt).chatMessages =
      pre ++ (if vt = 1 then
          { m with Upvotes := m.Upvotes + 1, Downvotes := m.Downvotes - 1 }
        else
          { m with Upvotes := m.Upvotes - 1, Downvotes := m.Downvotes + 1 }) :: post ∧
    mapLookup ((mapLookup (voteMessage s uv (pre ++ m :: post) mid vt).userVotes
        s.user).getD []) mid = some vt := by
  obtain ⟨uvm, huv, hin⟩ := lookup_of_inner_lookup uv s.user mid d hrec
  have hne : d ≠ vt := by rcases hopp with ⟨h1, h2⟩ | ⟨h1, h2⟩ <;> omega
  have hloop := voteLoop_append pre post m mid uvm vt hm hpre
  have happ : applyVoteTo m uvm mid vt =
      (if vt = 1 then
        { m with Upvotes := m.Upvotes + 1, Downvotes := m.Downvotes - 1 }
      else
        { m with Upvotes := m.Upvotes - 1, Downvotes := m.Downvotes + 1 }) := by
    rcases hopp with ⟨h1, h2⟩ | ⟨h1, h2⟩ <;>
      simp [applyVoteTo, hin, h1, h2]
  refine ⟨?_, ?_, ?_⟩ <;>
    simp [voteMessage, huv, hin, hne, hloop, happ,
      mapLookup_mapInsert_self]

/-- C2 witness: `bob` flips a recorded upvote on `helloMsg` (with one
upvote) to a downvote. -/
theorem C2_witness :
    (voteMessage bobSession [("bob", [("id1", (1 : Int))])]
        ([welcomeMsg] ++ { helloMsg with Upvotes := 1 } :: []) "id1" (-1)).err = none ∧
    (voteMessage bobSession [("bob", [("id1", 1)])]
        ([welcomeMsg] ++ { helloMsg with Upvotes := 1 } :: []) "id1" (-1)).chatMessages =
      [welcomeMsg] ++ (if (-1 : Int) = 1 then
          { { helloMsg with Upvotes := 1 } with Upvotes := 2, Downvotes := -1 }
        else
          { { helloMsg with Upvotes := 1 } with Upvotes := 0, Downvotes := 1 }) :: [] ∧
    mapLookup ((mapLookup (voteMessage bobSession [("bob", [("id1", 1)])]
        ([welcomeMsg] ++ { helloMsg with Upvotes := 1 } :: []) "id1" (-1)).userVotes
        bobSession.user).getD []) "id1" = some (-1) := by
  have h := C2_flip_vote bobSession [("bob", [("id1", 1)])] [welcomeMsg] []
    { helloMsg with Upvotes := 1 } "id1" 1 (-1) (by decide) (by decide)
    (by decide) (Or.inl ⟨rfl, rfl⟩)
  simpa using h

/-- C3 counterexample: on the log `[system welcome, user message]` with the
selection on the user message, one NavigateUp clamps at index 0, which holds
a system message — refuting that navigation never ends on a system
message. -/
theorem C3_counterexample :
    applyNavs [welcomeMsg, helloMsg] [.up] 1 = some 0 ∧
    welcomeMsg.System = true := by
  exact ⟨by simp [applyNavs, applyNav, navigateUp], rfl⟩

/-- C3 (amended): from any in-range index, every sequence of selection-mode
NavigateUp/NavigateDown events keeps `selectedMessage` inside `[0, len-1]`
(and never indexes out of range); after at least one event the index either
holds a non-system message or is clamped at a boundary — index 0 (for up)
or `len-1` (for down), where it may rest on a system message. -/
theorem C3_navigation_bounds (msgs : List Message) (es : List NavEvent)
    (sel : Int) (h0 : 0 ≤ sel) (h1 : sel < (msgs.length : Int)) :
    ∃ r, applyNavs msgs es sel = some r ∧ 0 ≤ r ∧ r < (msgs.length : Int) ∧
      (es = [] ∨ r = 0 ∨ r = (msgs.length : Int) - 1 ∨
        (msgs.get? r.toNat).map Message.System = some false) := by
  induction es generalizing sel with
  | nil => exact ⟨sel, rfl, h0, h1, Or.inl rfl⟩
  | cons e t ih =>
    have step : ∃ r1, applyNav msgs e sel = some r1 ∧ 0 ≤ r1 ∧
        r1 < (msgs.length : Int) ∧
        (r1 = 0 ∨ r1 = (msgs.length : Int) - 1 ∨
          (msgs.get? r1.toNat).map Message.System = some false) := by
      cases e with
      | up =>
        obtain ⟨r1, hr1, hb0, hb1, hd⟩ := navigateUp_safe msgs sel h0 h1
        exact ⟨r1, hr1, hb0, hb1, hd.imp id Or.inr⟩
      | down =>
        obtain ⟨r1, hr1, hb0, hb1, hd⟩ := navigateDown_safe msgs sel h0 h1
        exact ⟨r1, hr1, hb0, hb1, Or.inr hd⟩
    obtain ⟨r1, hr1, hb0, hb1, hd1⟩ := step
    obtain ⟨r, hr, hc0, hc1, hd⟩ := ih r1 hb0 hb1
    refine ⟨r, by simp [applyNavs, hr1, hr], hc0, hc1, Or.inr ?_⟩
    rcases hd with ht | hd
    · subst ht
      simp [applyNavs] at hr
      exact hr ▸ hd1
    · exact hd

/-- C3 witness: two messages, one NavigateUp from index 1. -/
theorem C3_witness :
    ((0 : Int) ≤ 1 ∧ (1 : Int) < (([welcomeMsg, helloMsg].length : Nat) : Int)) ∧
    ∃ r, applyNavs [welcomeMsg, helloMsg] [.up] 1 = some r ∧ 0 ≤ r ∧
      r < (([welcomeMsg, helloMsg].length : Nat) : Int) ∧
      (([NavEvent.up] : List NavEvent) = [] ∨ r = 0 ∨
        r = (([welcomeMsg, helloMsg].length : Nat) : Int) - 1 ∨
        ([welcomeMsg, helloMsg].get? r.toNat).map Message.System = some false) :=
  ⟨⟨by norm_num, by norm_num⟩,
    C3_navigation_bounds [welcomeMsg, helloMsg] [.up] 1 (by norm_num) (by norm_num)⟩

/-- C4 counterexample: entering selection mode on the log
`[user message, system join notice]` selects index 1 — the system notice —
though the most recent non-system message sits at index 0. -/
theorem C4_counterexample :
    (toggleMode [helloMsg, joinMsg] ⟨false, 0, 0⟩).selectedMessage = 1 ∧
    joinMsg.System = true ∧ helloMsg.System = false := by decide

/-- C4 (amended): toggling out of Input mode enters Selection mode and sets
`selectedMessage` to the log's last index `len - 1`, with no scan and no
skipping of system messages (`-1` on an empty log); whether anything
sensible is selected does not depend on the message being non-system. -/
theorem C4_toggle_selects_last (msgs : List Message) (v : ClientView)
    (h : v.isSelectMode = false) :
    toggleMode msgs v =
      { v with isSelectMode := true,
               selectedMessage := (msgs.length : Int) - 1 } := by
  simp [toggleMode, h]

/-- C4 witness: a concrete toggle from Input mode. -/
theorem C4_witness :
    toggleMode [helloMsg] ⟨false, 5, 7⟩ = ⟨true, 0, 7⟩ := by
  have h := C4_toggle_selects_last [helloMsg] ⟨false, 5, 7⟩ rfl
  simpa using h

/-- C5 counterexample: a 281-character submission is appended — the log
grows by one, there is no `InvalidContentError` and no rejection in
`addMessage`. -/
theorem C5_counterexample :
    (addMessage (some bobSession) "t3" (String.mk (List.replicate 281 'a'))
      false []).length = 1 := by
  simp [addMessage]

/-- C5 (amended): `addMessage` performs no content validation at all: for
every content — empty, ordinary, or longer than 280 characters — it appends
exactly one message to the log; the only 280-character limit in the program
is the UI textarea's `CharLimit`, and the only emptiness check is the Enter
handler's. -/
theorem C5_no_validation (session : Option Session) (ts content : String)
    (system : Bool) (msgs : List Message) :
    (addMessage session ts content system msgs).length = msgs.length + 1 := by
  simp [addMessage]

/-- C6 counterexample: the Enter handler does not trim: `" "` trims to the
empty string — so the claim forbids an append — yet the handler appends
it. -/
theorem C6_counterexample :
    trimSpec " " = "" ∧
    (handleEnter bobSession ⟨false, 0, 0⟩ " " "t4" []).length = 1 := by
  refine ⟨by decide, ?_⟩
  simp [handleEnter, addMessage]

/-- C6 (amended): in Input mode the Enter handler appends the raw textarea
value iff it is non-empty — no trimming happens, so whitespace-only text is
appended as-is; on an append the refreshed view reads the updated log. -/
theorem C6_submit_untrimmed (s : Session) (v : ClientView) (t ts : String)
    (msgs : List Message) (h : v.isSelectMode = false) :
    handleEnter s v t ts msgs =
      if t = "" then msgs else addMessage (some s) ts t false msgs := by
  by_cases ht : t = "" <;> simp [handleEnter, h, ht]

/-- C6 witness: an empty submission leaves the log unchanged. -/
theorem C6_witness :
    handleEnter bobSession ⟨false, 0, 0⟩ "" "t5" [helloMsg] = [helloMsg] := by
  simpa using C6_submit_untrimmed bobSession ⟨false, 0, 0⟩ "" "t5" [helloMsg] rfl

/-- C7 counterexample: a refresh that observes a changed length re-anchors
`selectedMessage` to the last index even when the last message is a system
notice; the newest non-system message sits at index 0. -/
theorem C7_counterexample :
    handleRefreshTick [helloMsg, joinMsg] ⟨true, 0, 0⟩ = ⟨true, 1, 2⟩ ∧
    joinMsg.System = true ∧ helloMsg.System = false := by decide

/-- C7 (amended): on a refresh tick, if the log length differs from
`lastMessageCount` the view records the new length and re-anchors
`selectedMessage` to the last index `len - 1` — whether or not that message
is a system message; if the length is unchanged the view is untouched. -/
theorem C7_refresh_reanchors_last (msgs : List Message) (v : ClientView) :
    ((msgs.length : Int) ≠ v.lastMessageCount →
      handleRefreshTick msgs v =
        { v with lastMessageCount := (msgs.length : Int),
                 selectedMessage := (msgs.length : Int) - 1 }) ∧
    ((msgs.length : Int) = v.lastMessageCount →
      handleRefreshTick msgs v = v) := by
  constructor <;> intro h <;> simp [handleRefreshTick, h]

/-- C7 witness: a grown log re-anchors; an unchanged count is a no-op. -/
theorem C7_witness :
    handleRefreshTick [helloMsg, joinMsg] ⟨true, 0, 0⟩ =
      { isSelectMode := true, selectedMessage := 2 - 1, lastMessageCount := 2 } ∧
    handleRefreshTick [helloMsg, joinMsg] ⟨true, 0, 2⟩ = ⟨true, 0, 2⟩ :=
  ⟨(C7_refresh_reanchors_last [helloMsg, joinMsg] ⟨true, 0, 0⟩).1 (by norm_num),
    (C7_refresh_reanchors_last [helloMsg, joinMsg] ⟨true, 0, 2⟩).2 (by norm_num)⟩

/-- C8 counterexample: system messages are not immune to votes:
`voteMessage` with the empty message id matches the first system message —
whose `UniqueID` is the empty string — and increments its upvote
counter. -/
theorem C8_counterexample :
    welcomeMsg.System = true ∧
    (voteMessage bobSession [] [welcomeMsg, helloMsg] "" 1).err = none ∧
    (voteMessage bobSession [] [welcomeMsg, helloMsg] "" 1).chatMessages =
      [{ welcomeMsg with Upvotes := 1 }, helloMsg] := by decide

/-- C8 (amended): every non-system message is created with id the sha256
hex digest of the concatenation of author name, timestamp and content — a
function of exactly those three fields — and every system message is
created with the empty id; but system messages' counters are reachable by a
Vote call passing the empty id (see the counterexample), so they are not
unvotable. -/
theorem C8_id_assignment (session : Option Session) (ts content : String)
    (msgs : List Message) :
    (∃ m, addMessage session ts content false msgs = msgs ++ [m] ∧
      m.System = false ∧
      m.UniqueID = hexOfBytes (sha256Bytes (strBytes
        (sessionUsername session ++ ts ++ content)))) ∧
    (∃ m, addMessage session ts content true msgs = msgs ++ [m] ∧
      m.System = true ∧ m.UniqueID = "") ∧
    ∀ m1 m2 : Message, m1.Username = m2.Username →
      m1.Timestamp = m2.Timestamp → m1.Content = m2.Content →
      generateUniqueMessageID m1 = generateUniqueMessageID m2 := by
  refine ⟨⟨_, rfl, rfl, rfl⟩, ⟨_, rfl, rfl, rfl⟩, fun m1 m2 h1 h2 h3 => ?_⟩
  simp [generateUniqueMessageID, h1, h2, h3]

/-- C8 witness: a concrete non-system append carries the hash id, and the
id ignores the fields outside `(Username, Timestamp, Content)`. -/
theorem C8_witness :
    (∃ m, addMessage (some bobSession) "t6" "hi" false [] = [] ++ [m] ∧
      m.System = false ∧
      m.UniqueID = hexOfBytes (sha256Bytes (strBytes
        (sessionUsername (some bobSession) ++ "t6" ++ "hi")))) ∧
    generateUniqueMessageID helloMsg =
      generateUniqueMessageID { helloMsg with PubKey := "other", Upvotes := 5 } :=
  ⟨(C8_id_assignment (some bobSession) "t6" "hi" []).1,
    (C8_id_assignment (some bobSession) "t6" "hi" []).2.2 helloMsg
      { helloMsg with PubKey := "other", Upvotes := 5 } rfl rfl rfl⟩

/-- C9: `voteMessage` keys its deduplication on the session user name
alone: two sessions with the same user name and different public keys get
identical results (error, ledger and log), for every prior state. -/
theorem C9_vote_ignores_credentials (s1 s2 : Session) (h : s1.user = s2.user)
    (uv : UserVotes) (msgs : List Message) (mid : String) (vt : Int) :
    voteMessage s1 uv msgs mid vt = voteMessage s2 uv msgs mid vt := by
  simp only [voteMessage, h]

/-- C9 witness: two sessions named `alice` with different keys. -/
theorem C9_witness :
    voteMessage ⟨"alice", some [1]⟩ [] [helloMsg] "id1" 1 =
      voteMessage ⟨"alice", some [2]⟩ [] [helloMsg] "id1" 1 :=
  C9_vote_ignores_credentials ⟨"alice", some [1]⟩ ⟨"alice", some [2]⟩ rfl
    [] [helloMsg] "id1" 1

/-- C10: `incrementUsers` adds one, `decrementUsers` subtracts one exactly
when the counter is positive and is a no-op at zero, and every sequence of
presence notifications starting from the initial counter 0 stays
non-negative. -/
theorem C10_presence_floor :
    (∀ n : Int, incrementUsers n = n + 1) ∧
    (∀ n : Int, 0 < n → decrementUsers n = n - 1) ∧
    decrementUsers 0 = 0 ∧
    ∀ ops : List PresenceOp, 0 ≤ applyPresenceOps ops 0 := by
  refine ⟨fun n => rfl, fun n hn => ?_, by norm_num [decrementUsers],
    fun ops => presence_nonneg ops 0 le_rfl⟩
  simp [decrementUsers, hn]

/-- C10 witness: a concrete positive decrement and a concrete notification
sequence with more disconnects than connects. -/
theorem C10_witness :
    decrementUsers 3 = 2 ∧
    0 ≤ applyPresenceOps [.inc, .dec, .dec, .dec] 0 :=
  ⟨C10_presence_floor.2.1 3 (by norm_num),
    C10_presence_floor.2.2.2 [.inc, .dec, .dec, .dec]⟩

end Chat
